import Mathlib

/-!
Shallow embedding of the wb2k bot (src/wb2k/__main__.py and
src/wb2k/sendMessage.py): the connection-lifecycle and event-dispatch
loop, the channel resolver, the event filter and the welcome dispatcher.

Python dictionaries reached through `.get` become structures with
`Option` fields; Python truthiness of strings and lists is modelled
explicitly; raised exceptions become distinguished result constructors.
The environment (Slack) is modelled by explicit inputs: the outcome of
each `rtm_read` call, the outcome of each `rtm_connect` call, the two
channel listings, and whether `rtm_send_message` is available on the
session (a stale session raises `AttributeError` when it is called).
-/

/-- A Slack channel or group entry as returned by `channels.list` /
`groups.list`: only the `id` and `name` fields are consulted. -/
structure Chan where
  id : String
  name : String
deriving Repr, DecidableEq

/-- A nested `user_profile` object inside an inbound message; its `name`
field is read with `.get`, so it is optional. -/
structure UserProfile where
  name : Option String
deriving Repr, DecidableEq

/-- An inbound RTM message as consumed by `handle_message`: every field
is read with `.get`, hence optional. -/
structure Msg where
  subtype : Option String
  user : Option String
  channel : Option String
  user_profile : Option UserProfile
deriving Repr, DecidableEq

/-- Python truthiness of an optional string: `None` and the empty
string are falsy. -/
def optTruthy : Option String → Bool
  | none => false
  | some s => !(s == "")

/-- Python truthiness test `not lst` on an optional list: `None` and the
empty list are falsy. -/
def listFalsy : Option (List Chan) → Bool
  | none => true
  | some l => l.isEmpty

/-- Python `channels_list + groups_list`: concatenation when both are
lists, `TypeError` (modelled as `none`) when either side is `None`. -/
def pyConcat : Option (List Chan) → Option (List Chan) → Option (List Chan)
  | some a, some b => some (a ++ b)
  | _, _ => none

/-- Outcome of `find_channel_id`. The two `sys.exit` calls become the
two failure constructors; an unhandled Python `TypeError` from
concatenating `None` with a list becomes `typeError`. -/
inductive FindResult
  | found (id : String)
  | enumerationFailure
  | notFound
  | typeError
deriving Repr, DecidableEq

/-- `find_channel_id` from src/wb2k/__main__.py lines 48-61 (identical in
src/wb2k/sendMessage.py): the two listings arrive as `.get` results, so
each is either a list or `None`. -/
def find_channel_id (channel : String)
    (channels_list groups_list : Option (List Chan)) : FindResult :=
  if listFalsy channels_list && listFalsy groups_list then
    FindResult.enumerationFailure
  else
    match pyConcat channels_list groups_list with
    | none => FindResult.typeError
    | some all =>
      match (all.filter (fun c => c.name == channel)).map (fun c => c.id) with
      | [] => FindResult.notFound
      | i :: _ => FindResult.found i

/-- Log lines emitted inside the read loop, as structured events. -/
inductive LogEvent
  | lostConnection
  | failedReconnect
  | reconnected
  | welcomed (username : Option String) (channel : String)
  | sendFailed (channel : String)
deriving Repr, DecidableEq

/-- The text sent to a joining user (format string of line 78 applied to
the user id). -/
def welcomeText (user : String) : String :=
  "Sup, <@" ++ user ++ "> :hand:\nMake sure to add a party hat to your avatar!"

/-- The join-subtype test `subtype in ('group_join', 'channel_join')`. -/
def isJoinSubtype (m : Msg) : Bool :=
  m.subtype == some "group_join" || m.subtype == some "channel_join"

/-- An unhandled Python exception escaping `handle_message`:
`user_profile.get('name')` raises `AttributeError` when `user_profile`
is `None` (line 73 sits outside the `try` block). -/
inductive HandleErr
  | attributeError
deriving Repr, DecidableEq

/-- What one `handle_message` call did: whether `rtm_send_message` was
invoked, the delivered send (channel, text) if any, and the log line it
emitted if any. -/
structure HandleResult where
  sendAttempted : Bool
  send : Option (String × String)
  log : Option LogEvent
deriving Repr, DecidableEq

/-- `handle_message` from src/wb2k/__main__.py lines 64-82. `sendOk`
models whether the session still carries the send capability; when it
does not, the `rtm_send_message` call raises `AttributeError`, which is
caught and logged at error level. -/
def handle_message (m : Msg) (channel channel_id : String) (sendOk : Bool) :
    Except HandleErr HandleResult :=
  if isJoinSubtype m && optTruthy m.user then
    match m.user_profile with
    | none => Except.error HandleErr.attributeError
    | some user_profile =>
      let username := user_profile.name
      if m.channel == some channel_id then
        if sendOk then
          Except.ok { sendAttempted := true,
                      send := some (channel, welcomeText (m.user.getD "")),
                      log := some (LogEvent.welcomed username channel) }
        else
          Except.ok { sendAttempted := true, send := none,
                      log := some (LogEvent.sendFailed channel) }
      else
        Except.ok { sendAttempted := false, send := none, log := none }
  else
    Except.ok { sendAttempted := false, send := none, log := none }

/-- Observable state threaded through the read loop: the retry counter,
the number of `rtm_connect` reconnect attempts made so far, the sends
delivered so far, and the log lines emitted so far. -/
structure LoopState where
  retryCount : Nat
  attempts : Nat
  sends : List (String × String)
  logs : List LogEvent
deriving Repr, DecidableEq

/-- The loop state on entry to the read loop (`retry_count = 0`). -/
def initState : LoopState :=
  { retryCount := 0, attempts := 0, sends := [], logs := [] }

/-- Fold the outcome of one `handle_message` call into the loop state. -/
def applyResult (s : LoopState) (r : HandleResult) : LoopState :=
  { s with sends := s.sends ++ r.send.toList, logs := s.logs ++ r.log.toList }

/-- The `for message in sc.rtm_read(): handle_message(...)` pass: events
are handled in delivery order; an unhandled exception from
`handle_message` aborts the pass (and the process). -/
def processMessages (channel channel_id : String) (sendOk : Bool) :
    List Msg → LoopState → LoopState × Option HandleErr
  | [], s => (s, none)
  | m :: ms, s =>
    match handle_message m channel channel_id sendOk with
    | Except.error e => (s, some e)
    | Except.ok r => processMessages channel channel_id sendOk ms (applyResult s r)

/-- Outcome of one `rtm_read` call: a (possibly empty) batch of events,
or the `WebSocketConnectionClosedException` signalling connection loss. -/
inductive ReadResult
  | events (msgs : List Msg)
  | closed
deriving Repr, DecidableEq

/-- One iteration of environment behaviour: what `rtm_read` yields this
pass and, consulted only on connection loss, whether the `rtm_connect`
reconnect attempt succeeds. -/
structure LoopInput where
  read : ReadResult
  reconnectOk : Bool
deriving Repr, DecidableEq

/-- The fatal `sys.exit` messages, as labels. -/
inductive FatalMsg
  | verbosityLimit
  | tokenUndefined
  | connectFailed
  | enumerateFailed
  | channelNotFound (channel : String)
  | tooManyRetries
deriving Repr, DecidableEq

/-- How a run ends, relative to a finite script of environment inputs:
still inside the loop with the script exhausted, stopped by `sys.exit`,
or killed by an unhandled Python exception. -/
inductive RunOutcome
  | running (s : LoopState)
  | fatalExit (s : LoopState) (msg : FatalMsg)
  | crash (s : LoopState)
deriving Repr, DecidableEq

/-- The observable loop state at the end of a run. -/
def RunOutcome.state : RunOutcome → LoopState
  | RunOutcome.running s => s
  | RunOutcome.fatalExit s _ => s
  | RunOutcome.crash s => s

/-- Did the run stop in the fatal `sys.exit`? -/
def RunOutcome.isFatalExit : RunOutcome → Bool
  | RunOutcome.fatalExit _ _ => true
  | _ => false

/-- Is the run still inside the read loop (script exhausted)? -/
def RunOutcome.isRunning : RunOutcome → Bool
  | RunOutcome.running _ => true
  | _ => false

/-- The `while True` read loop of src/wb2k/__main__.py lines 124-153,
driven by a finite script of environment inputs. A successful pass
resets `retry_count` to 0. On `WebSocketConnectionClosedException` the
loop logs the loss, makes one `rtm_connect` attempt, and on failure logs
it, exits fatally when `retry_count >= retries`, and otherwise sleeps;
`retry_count += 1` runs after BOTH the failure and the success branch
(line 153 is outside the if/else). -/
def runLoop (channel channel_id : String) (retries : Nat) (sendOk : Bool) :
    LoopState → List LoopInput → RunOutcome
  | s, [] => RunOutcome.running s
  | s, ⟨ReadResult.events msgs, _⟩ :: rest =>
    match processMessages channel channel_id sendOk msgs s with
    | (s2, some _) => RunOutcome.crash s2
    | (s2, none) =>
      runLoop channel channel_id retries sendOk { s2 with retryCount := 0 } rest
  | s, ⟨ReadResult.closed, reconnectOk⟩ :: rest =>
    if reconnectOk then
      runLoop channel channel_id retries sendOk
        { s with retryCount := s.retryCount + 1,
                 attempts := s.attempts + 1,
                 logs := s.logs ++ [LogEvent.lostConnection, LogEvent.reconnected] } rest
    else if retries ≤ s.retryCount then
      RunOutcome.fatalExit
        { s with attempts := s.attempts + 1,
                 logs := s.logs ++ [LogEvent.lostConnection, LogEvent.failedReconnect] }
        FatalMsg.tooManyRetries
    else
      runLoop channel channel_id retries sendOk
        { s with retryCount := s.retryCount + 1,
                 attempts := s.attempts + 1,
                 logs := s.logs ++ [LogEvent.lostConnection, LogEvent.failedReconnect] } rest

/-- `cli` from src/wb2k/__main__.py lines 94-156: verbosity guard, token
check, initial connect, channel resolution, optional announce send (not
wrapped in `try`: it crashes the process if the send capability raises),
then the read loop. -/
def main_cli (channel : String) (verbose retries : Nat) (announce : Bool)
    (token : Option String) (connectOk sendOk : Bool)
    (channels_list groups_list : Option (List Chan))
    (script : List LoopInput) : RunOutcome :=
  if 11 < verbose then RunOutcome.fatalExit initState FatalMsg.verbosityLimit
  else if !(optTruthy token) then RunOutcome.fatalExit initState FatalMsg.tokenUndefined
  else if connectOk then
    match find_channel_id channel channels_list groups_list with
    | FindResult.enumerationFailure =>
        RunOutcome.fatalExit initState FatalMsg.enumerateFailed
    | FindResult.notFound =>
        RunOutcome.fatalExit initState (FatalMsg.channelNotFound channel)
    | FindResult.typeError => RunOutcome.crash initState
    | FindResult.found channel_id =>
      if announce then
        if sendOk then
          runLoop channel channel_id retries sendOk
            { initState with sends := [(channel, "hello party people 🎉")] } script
        else RunOutcome.crash initState
      else runLoop channel channel_id retries sendOk initState script
  else RunOutcome.fatalExit initState FatalMsg.connectFailed

/-- Exit behaviour of the one-shot entry point. -/
inductive OneShotExit
  | exitZero
  | fatalExit (msg : FatalMsg)
  | crashed
deriving Repr, DecidableEq

/-- Observable outcome of a one-shot run: the sends delivered, whether a
read loop was ever entered, and how the process exited. -/
structure OneShotRun where
  sends : List (String × String)
  loopEntered : Bool
  outcome : OneShotExit
deriving Repr, DecidableEq

/-- `cli` from src/wb2k/sendMessage.py lines 73-98: verbosity guard,
token check, connect, channel resolution, then — only when `message` is
truthy — a single `rtm_send_message(channel, message)` call, and return
(process exit 0). The file contains no read loop at all, so
`loopEntered` is `false` on every path. -/
def sendMessage_cli (channel : String) (verbose retries : Nat)
    (message token : Option String) (connectOk sendOk : Bool)
    (channels_list groups_list : Option (List Chan)) : OneShotRun :=
  if 11 < verbose then
    { sends := [], loopEntered := false, outcome := OneShotExit.fatalExit FatalMsg.verbosityLimit }
  else if !(optTruthy token) then
    { sends := [], loopEntered := false, outcome := OneShotExit.fatalExit FatalMsg.tokenUndefined }
  else if connectOk then
    match find_channel_id channel channels_list groups_list with
    | FindResult.enumerationFailure =>
        { sends := [], loopEntered := false, outcome := OneShotExit.fatalExit FatalMsg.enumerateFailed }
    | FindResult.notFound =>
        { sends := [], loopEntered := false,
          outcome := OneShotExit.fatalExit (FatalMsg.channelNotFound channel) }
    | FindResult.typeError =>
        { sends := [], loopEntered := false, outcome := OneShotExit.crashed }
    | FindResult.found _ =>
      if optTruthy message then
        if sendOk then
          { sends := [(channel, message.getD "")], loopEntered := false,
            outcome := OneShotExit.exitZero }
        else { sends := [], loopEntered := false, outcome := OneShotExit.crashed }
      else { sends := [], loopEntered := false, outcome := OneShotExit.exitZero }
  else { sends := [], loopEntered := false, outcome := OneShotExit.fatalExit FatalMsg.connectFailed }

/-- Modelled from the spec: §4.1 Channel Resolver, for the case where
both listings are available as collections — concatenate, filter to
exact (case-sensitive) name matches, return the identifier of the first
match; `EnumerationError` when both listings are empty, and
`ChannelNotFoundError` when no entry matches. -/
def resolve_spec (channel : String) (cs gs : List Chan) : FindResult :=
  if cs.isEmpty && gs.isEmpty then FindResult.enumerationFailure
  else
    match (cs ++ gs).find? (fun c => c.name == channel) with
    | some c => FindResult.found c.id
    | none => FindResult.notFound

/-- The resolution contract amended for the one-listing-unavailable
case: when both listings are collections it behaves as `resolve_spec`;
when both are empty or unavailable it fails with the enumeration error;
when exactly one is unavailable and the other non-empty, the `None +
list` concatenation raises an unhandled `TypeError` instead. -/
def resolveAmended (channel : String) :
    Option (List Chan) → Option (List Chan) → FindResult
  | some cs, some gs => resolve_spec channel cs gs
  | none, none => FindResult.enumerationFailure
  | none, some gs =>
      if gs.isEmpty then FindResult.enumerationFailure else FindResult.typeError
  | some cs, none =>
      if cs.isEmpty then FindResult.enumerationFailure else FindResult.typeError

/-- Did a `handle_message` outcome invoke the send capability? -/
def sendAttemptedB : Except HandleErr HandleResult → Bool
  | Except.ok r => r.sendAttempted
  | Except.error _ => false

/-- Did a `handle_message` outcome escape with an unhandled exception? -/
def raisedB : Except HandleErr HandleResult → Bool
  | Except.ok _ => false
  | Except.error _ => true

/-- Taking the head of `filter`-then-`map` agrees with `find?` followed
by extraction: the first filtered id is the id of the first match. -/
theorem firstFilteredId_eq_find? (channel : String) (l : List Chan) :
    (match (l.filter (fun c => c.name == channel)).map (fun c => c.id) with
     | [] => FindResult.notFound
     | i :: _ => FindResult.found i)
    = (match l.find? (fun c => c.name == channel) with
       | some c => FindResult.found c.id
       | none => FindResult.notFound) := by
  induction l with
  | nil => rfl
  | cons c t ih =>
    cases h : (c.name == channel) with
    | true => simp [List.filter_cons, List.find?, h]
    | false => simpa [List.filter_cons, List.find?, h] using ih

/-- Claim C6 (amended): channel resolution agrees with the spec-side
resolver whenever both listings are available as collections, fails with
the enumeration error when both are empty or unavailable, and — the
amendment — raises an unhandled type error when exactly one listing is
unavailable while the other is non-empty. -/
theorem resolver_amended_c6 (channel : String)
    (channels_list groups_list : Option (List Chan)) :
    find_channel_id channel channels_list groups_list
      = resolveAmended channel channels_list groups_list := by
  cases channels_list with
  | none =>
    cases groups_list with
    | none => rfl
    | some gs =>
      cases gs with
      | nil => rfl
      | cons g t => rfl
  | some cs =>
    cases groups_list with
    | none =>
      cases cs with
      | nil => rfl
      | cons c t => rfl
    | some gs =>
      show find_channel_id channel (some cs) (some gs) = resolve_spec channel cs gs
      unfold find_channel_id resolve_spec
      cases h : (cs.isEmpty && gs.isEmpty) with
      | true =>
        have h1 : (listFalsy (some cs) && listFalsy (some gs)) = true := h
        rw [if_pos h1]
        rfl
      | false =>
        have h1 : (listFalsy (some cs) && listFalsy (some gs)) = false := h
        rw [if_neg (by simp [h1]), if_neg (by simp)]
        exact firstFilteredId_eq_find? channel (cs ++ gs)

/-- Claim C6 counterexample: with the public listing unavailable and the
private listing holding exactly one entry named `general`, resolution
does not return that entry's id (as the claim states) — it raises the
unhandled type error. -/
theorem resolver_counterexample_c6 :
    find_channel_id "general" none (some [{ id := "C1", name := "general" }])
        = FindResult.typeError
    ∧ find_channel_id "general" none (some [{ id := "C1", name := "general" }])
        ≠ FindResult.found "C1" := by
  constructor
  · rfl
  · decide

/-- Claim C10: when exactly one of the two listings is unavailable
(`None`) while the other is present and non-empty, `find_channel_id`
raises the unhandled type error from concatenating `None` with a list,
rather than the enumeration failure, the not-found failure, or a normal
result. -/
theorem mixed_listing_type_error_c10 (channel : String) (cs : List Chan)
    (h : cs ≠ []) :
    find_channel_id channel none (some cs) = FindResult.typeError
    ∧ find_channel_id channel (some cs) none = FindResult.typeError := by
  cases cs with
  | nil => exact absurd rfl h
  | cons c t => exact ⟨rfl, rfl⟩

/-- Witness for C10 at a concrete non-empty listing. -/
theorem mixed_listing_type_error_c10_witness :
    find_channel_id "general" none (some [{ id := "C1", name := "general" }])
        = FindResult.typeError
    ∧ find_channel_id "general" (some [{ id := "C1", name := "general" }]) none
        = FindResult.typeError :=
  mixed_listing_type_error_c10 "general" [{ id := "C1", name := "general" }] (by decide)

/-- Claim C4 (code bug): a join event that carries a user reference but
no nested `user_profile` is NOT handled without error — `handle_message`
raises an unhandled `AttributeError` (from `user_profile.get('name')`
with `user_profile = None`, outside the `try` block), instead of
treating the display name as empty/unknown. -/
theorem missing_profile_raises_c4 :
    handle_message
      { subtype := some "channel_join", user := some "U1",
        channel := some "C123", user_profile := none }
      "general" "C123" true
    = Except.error HandleErr.attributeError := by
  rfl

/-- Claim C5 counterexample: an event whose subtype is `group_join`,
that carries a user reference, and whose channel reference equals the
resolved target id meets all three conditions of the claim, yet no
welcome send occurs — `handle_message` raises instead, because the
event lacks a `user_profile`. -/
theorem welcome_iff_counterexample_c5 :
    sendAttemptedB (handle_message
      { subtype := some "group_join", user := some "U2",
        channel := some "C123", user_profile := none }
      "general" "C123" true) = false
    ∧ handle_message
        { subtype := some "group_join", user := some "U2",
          channel := some "C123", user_profile := none }
        "general" "C123" true
      = Except.error HandleErr.attributeError := by
  exact ⟨rfl, rfl⟩

/-- Claim C5 (amended): the welcome send capability is invoked exactly
when the subtype is a join marker, a (truthy) user reference is present,
the event carries a `user_profile` object, and the channel reference
equals the resolved target id; and `handle_message` raises exactly when
the subtype and user conditions hold but the `user_profile` is missing.
All other events yield no send. -/
theorem welcome_iff_amended_c5 (m : Msg) (channel channel_id : String)
    (sendOk : Bool) :
    sendAttemptedB (handle_message m channel channel_id sendOk)
      = (isJoinSubtype m && optTruthy m.user && m.user_profile.isSome
          && (m.channel == some channel_id))
    ∧ raisedB (handle_message m channel channel_id sendOk)
      = (isJoinSubtype m && optTruthy m.user && !m.user_profile.isSome) := by
  unfold handle_message sendAttemptedB raisedB
  cases hj : isJoinSubtype m <;> cases hu : optTruthy m.user <;>
    cases hp : m.user_profile <;> cases hc : (m.channel == some channel_id) <;>
      cases sendOk <;> simp [hj, hu, hp, hc]


/-- Unfolding one loop iteration on connection loss with a failed
reconnect attempt: the attempt is counted, then either the fatal exit
(when `retry_count >= retries`) or a retry with the counter bumped. -/
theorem step_closed_false (channel channel_id : String) (retries : Nat)
    (sendOk : Bool) (s : LoopState) (rest : List LoopInput) :
    runLoop channel channel_id retries sendOk s (⟨ReadResult.closed, false⟩ :: rest)
    = if retries ≤ s.retryCount then
        RunOutcome.fatalExit
          { s with attempts := s.attempts + 1,
                   logs := s.logs ++ [LogEvent.lostConnection, LogEvent.failedReconnect] }
          FatalMsg.tooManyRetries
      else
        runLoop channel channel_id retries sendOk
          { s with retryCount := s.retryCount + 1,
                   attempts := s.attempts + 1,
                   logs := s.logs ++ [LogEvent.lostConnection, LogEvent.failedReconnect] } rest :=
  rfl

/-- Unfolding one loop iteration on connection loss with a successful
reconnect attempt: the attempt is counted and `retry_count` is
incremented (line 153 runs after the success branch too). -/
theorem step_closed_true (channel channel_id : String) (retries : Nat)
    (sendOk : Bool) (s : LoopState) (rest : List LoopInput) :
    runLoop channel channel_id retries sendOk s (⟨ReadResult.closed, true⟩ :: rest)
    = runLoop channel channel_id retries sendOk
        { s with retryCount := s.retryCount + 1,
                 attempts := s.attempts + 1,
                 logs := s.logs ++ [LogEvent.lostConnection, LogEvent.reconnected] } rest :=
  rfl

/-- In a run where every read signals connection loss and every
reconnect attempt fails, the number of reconnect attempts stays within
the budget left by the current retry counter. -/
theorem allFail_attempts_bound (channel channel_id : String)
    (retries : Nat) (sendOk : Bool) (n : Nat) (s : LoopState)
    (h : s.retryCount ≤ retries) :
    (runLoop channel channel_id retries sendOk s
        (List.replicate n ⟨ReadResult.closed, false⟩)).state.attempts
      + s.retryCount
    ≤ s.attempts + retries + 1 := by
  induction n generalizing s with
  | zero =>
    show s.attempts + s.retryCount ≤ s.attempts + retries + 1
    omega
  | succ n ih =>
    rw [List.replicate_succ, step_closed_false]
    by_cases hr : retries ≤ s.retryCount
    · rw [if_pos hr]
      show s.attempts + 1 + s.retryCount ≤ s.attempts + retries + 1
      omega
    · rw [if_neg hr]
      have hx : (runLoop channel channel_id retries sendOk
          { s with retryCount := s.retryCount + 1,
                   attempts := s.attempts + 1,
                   logs := s.logs ++ [LogEvent.lostConnection, LogEvent.failedReconnect] }
          (List.replicate n ⟨ReadResult.closed, false⟩)).state.attempts
            + (s.retryCount + 1)
          ≤ (s.attempts + 1) + retries + 1 :=
        ih { s with retryCount := s.retryCount + 1,
                    attempts := s.attempts + 1,
                    logs := s.logs ++ [LogEvent.lostConnection, LogEvent.failedReconnect] }
          (show s.retryCount + 1 ≤ retries by omega)
      omega

/-- In a run where every read signals connection loss and every
reconnect attempt fails, once the script is long enough to exhaust the
retry budget the loop ends in the fatal exit, having made exactly the
budgeted number of reconnect attempts — however much longer the script
is. -/
theorem allFail_fatal (channel channel_id : String)
    (retries : Nat) (sendOk : Bool) (n : Nat) (s : LoopState)
    (h : s.retryCount ≤ retries) (h2 : retries + 1 ≤ s.retryCount + n) :
    (runLoop channel channel_id retries sendOk s
        (List.replicate n ⟨ReadResult.closed, false⟩)).isFatalExit = true
    ∧ (runLoop channel channel_id retries sendOk s
        (List.replicate n ⟨ReadResult.closed, false⟩)).state.attempts
        + s.retryCount
      = s.attempts + retries + 1 := by
  induction n generalizing s with
  | zero => omega
  | succ n ih =>
    rw [List.replicate_succ, step_closed_false]
    by_cases hr : retries ≤ s.retryCount
    · rw [if_pos hr]
      refine ⟨rfl, ?_⟩
      show s.attempts + 1 + s.retryCount = s.attempts + retries + 1
      omega
    · rw [if_neg hr]
      have hx := ih { s with retryCount := s.retryCount + 1,
                             attempts := s.attempts + 1,
                             logs := s.logs ++ [LogEvent.lostConnection, LogEvent.failedReconnect] }
        (show s.retryCount + 1 ≤ retries by omega)
        (show retries + 1 ≤ s.retryCount + 1 + n by omega)
      refine ⟨hx.1, ?_⟩
      have hx2 : (runLoop channel channel_id retries sendOk
          { s with retryCount := s.retryCount + 1,
                   attempts := s.attempts + 1,
                   logs := s.logs ++ [LogEvent.lostConnection, LogEvent.failedReconnect] }
          (List.replicate n ⟨ReadResult.closed, false⟩)).state.attempts
            + (s.retryCount + 1)
          = (s.attempts + 1) + retries + 1 := hx.2
      omega

/-- Claim C1: following a single connection loss with every reconnect
attempt failing, the Supervisor makes at most `retries + 1` reconnect
attempts before the fatal exit, and once the budget is exhausted it is
in the fatal exit with exactly `retries + 1` attempts no matter how much
longer the run goes — it never attempts reconnection after the fatal
exit. -/
theorem retry_ceiling_c1 (channel channel_id : String)
    (retries : Nat) (sendOk : Bool) (n : Nat) :
    (runLoop channel channel_id retries sendOk initState
        (List.replicate n ⟨ReadResult.closed, false⟩)).state.attempts
      ≤ retries + 1
    ∧ (retries + 1 ≤ n →
        (runLoop channel channel_id retries sendOk initState
            (List.replicate n ⟨ReadResult.closed, false⟩)).isFatalExit = true
        ∧ (runLoop channel channel_id retries sendOk initState
            (List.replicate n ⟨ReadResult.closed, false⟩)).state.attempts
          = retries + 1) := by
  constructor
  · have hx := allFail_attempts_bound channel channel_id retries sendOk n initState
      (Nat.zero_le retries)
    have hx2 : (runLoop channel channel_id retries sendOk initState
        (List.replicate n ⟨ReadResult.closed, false⟩)).state.attempts + 0
        ≤ 0 + retries + 1 := hx
    omega
  · intro hn
    have hx := allFail_fatal channel channel_id retries sendOk n initState
      (Nat.zero_le retries) (show retries + 1 ≤ 0 + n by omega)
    refine ⟨hx.1, ?_⟩
    have hx2 : (runLoop channel channel_id retries sendOk initState
        (List.replicate n ⟨ReadResult.closed, false⟩)).state.attempts + 0
        = 0 + retries + 1 := hx.2
    omega

/-- Witness for C1: `max_retries = 2`, five loss events in the script —
the run is fatal after exactly three reconnect attempts. -/
theorem retry_ceiling_c1_witness :
    (runLoop "general" "C123" 2 true initState
        (List.replicate 5 ⟨ReadResult.closed, false⟩)).isFatalExit = true
    ∧ (runLoop "general" "C123" 2 true initState
        (List.replicate 5 ⟨ReadResult.closed, false⟩)).state.attempts = 2 + 1 :=
  (retry_ceiling_c1 "general" "C123" 2 true 5).2 (by decide)

/-- Unfolding one loop iteration on a delivered batch: the batch is
processed in order; an unhandled exception kills the process, otherwise
`retry_count` is reset to 0 and the loop goes on. -/
theorem step_events (channel channel_id : String) (retries : Nat) (sendOk : Bool)
    (s : LoopState) (msgs : List Msg) (b : Bool) (rest : List LoopInput) :
    runLoop channel channel_id retries sendOk s (⟨ReadResult.events msgs, b⟩ :: rest)
    = match processMessages channel channel_id sendOk msgs s with
      | (s2, some _) => RunOutcome.crash s2
      | (s2, none) =>
        runLoop channel channel_id retries sendOk { s2 with retryCount := 0 } rest :=
  rfl

/-- Claim C2: whatever the prior value of `retry_count`, a read pass
that completes without a connection-closed signal (and without an
unhandled exception), even one draining zero events, leaves the loop
running with `retry_count = 0`. -/
theorem retry_reset_c2 (channel channel_id : String) (retries : Nat)
    (sendOk : Bool) (s : LoopState) (msgs : List Msg) (b : Bool)
    (h : (processMessages channel channel_id sendOk msgs s).2 = none) :
    (runLoop channel channel_id retries sendOk s
        [⟨ReadResult.events msgs, b⟩]).isRunning = true
    ∧ (runLoop channel channel_id retries sendOk s
        [⟨ReadResult.events msgs, b⟩]).state.retryCount = 0 := by
  rw [step_events]
  rcases hpm : processMessages channel channel_id sendOk msgs s with ⟨s2, e⟩
  rw [hpm] at h
  simp only at h
  subst h
  exact ⟨rfl, rfl⟩

/-- Witness for C2: a pass draining zero events from a state with
`retry_count = 7` ends with `retry_count = 0`. -/
theorem retry_reset_c2_witness :
    (runLoop "general" "C123" 8 true
        { retryCount := 7, attempts := 3, sends := [], logs := [] }
        [⟨ReadResult.events [], true⟩]).isRunning = true
    ∧ (runLoop "general" "C123" 8 true
        { retryCount := 7, attempts := 3, sends := [], logs := [] }
        [⟨ReadResult.events [], true⟩]).state.retryCount = 0 :=
  retry_reset_c2 "general" "C123" 8 true
    { retryCount := 7, attempts := 3, sends := [], logs := [] } [] true rfl

/-- Claim C3 counterexample: two failed reconnect attempts followed by
one successful attempt leave `retry_count = 3`, not `2` as the claim
states — the `retry_count += 1` on line 153 sits outside the if/else
and so also runs after a successful reconnect. -/
theorem succ_reconnect_counterexample_c3 :
    (runLoop "general" "C123" 8 true initState
        [⟨ReadResult.closed, false⟩, ⟨ReadResult.closed, false⟩,
         ⟨ReadResult.closed, true⟩]).state.retryCount = 3
    ∧ (runLoop "general" "C123" 8 true initState
        [⟨ReadResult.closed, false⟩, ⟨ReadResult.closed, false⟩,
         ⟨ReadResult.closed, true⟩]).state.retryCount ≠ 2 := by
  exact ⟨rfl, by decide⟩

/-- Claim C3 (amended): a successful reconnect attempt increments
`retry_count` by one (it is not reset); after two failed attempts and
one successful attempt `retry_count` equals 3 — with the expected two
failed-reconnect log lines and one reconnected log line — and it stays
so until the next fully successful read pass resets it to 0. -/
theorem succ_reconnect_increments_c3 :
    (∀ (channel channel_id : String) (retries : Nat) (sendOk : Bool) (s : LoopState),
      (runLoop channel channel_id retries sendOk s
          [⟨ReadResult.closed, true⟩]).state.retryCount = s.retryCount + 1)
    ∧ (runLoop "general" "C123" 8 true initState
        [⟨ReadResult.closed, false⟩, ⟨ReadResult.closed, false⟩,
         ⟨ReadResult.closed, true⟩]).state.retryCount = 3
    ∧ (runLoop "general" "C123" 8 true initState
        [⟨ReadResult.closed, false⟩, ⟨ReadResult.closed, false⟩,
         ⟨ReadResult.closed, true⟩]).state.logs
      = [LogEvent.lostConnection, LogEvent.failedReconnect,
         LogEvent.lostConnection, LogEvent.failedReconnect,
         LogEvent.lostConnection, LogEvent.reconnected]
    ∧ (runLoop "general" "C123" 8 true initState
        [⟨ReadResult.closed, false⟩, ⟨ReadResult.closed, false⟩,
         ⟨ReadResult.closed, true⟩, ⟨ReadResult.events [], true⟩]).state.retryCount = 0 := by
  refine ⟨?_, rfl, rfl, rfl⟩
  intro channel channel_id retries sendOk s
  rw [step_closed_true]
  rfl

/-- Claim C7: when the session's send capability is missing (`sendOk =
false`), a join event's failed welcome send is caught and logged at
error level, the dispatch is skipped for that event only (the remaining
events of the batch are still processed), and the read loop continues
rather than the process terminating. -/
theorem stale_send_nonfatal_c7 (channel channel_id : String) (m : Msg)
    (p : UserProfile)
    (h1 : isJoinSubtype m = true) (h2 : optTruthy m.user = true)
    (h3 : m.user_profile = some p) (h4 : m.channel = some channel_id) :
    handle_message m channel channel_id false
      = Except.ok { sendAttempted := true, send := none,
                    log := some (LogEvent.sendFailed channel) }
    ∧ (∀ (ms : List Msg) (s : LoopState),
        processMessages channel channel_id false (m :: ms) s
        = processMessages channel channel_id false ms
            (applyResult s { sendAttempted := true, send := none,
                             log := some (LogEvent.sendFailed channel) }))
    ∧ (∀ (retries : Nat) (s : LoopState) (rest : List LoopInput) (b : Bool),
        runLoop channel channel_id retries false s (⟨ReadResult.events [m], b⟩ :: rest)
        = runLoop channel channel_id retries false
            { applyResult s { sendAttempted := true, send := none,
                              log := some (LogEvent.sendFailed channel) }
              with retryCount := 0 } rest) := by
  have hm : handle_message m channel channel_id false
      = Except.ok { sendAttempted := true, send := none,
                    log := some (LogEvent.sendFailed channel) } := by
    unfold handle_message
    rw [h1, h2, h3]
    simp [h4]
  refine ⟨hm, ?_, ?_⟩
  · intro ms s
    have hcons : processMessages channel channel_id false (m :: ms) s
        = match handle_message m channel channel_id false with
          | Except.error e => (s, some e)
          | Except.ok r => processMessages channel channel_id false ms (applyResult s r) :=
      rfl
    rw [hcons, hm]
  · intro retries s rest b
    have hpm : processMessages channel channel_id false [m] s
        = (applyResult s { sendAttempted := true, send := none,
                           log := some (LogEvent.sendFailed channel) }, none) := by
      have hcons : processMessages channel channel_id false [m] s
          = match handle_message m channel channel_id false with
            | Except.error e => (s, some e)
            | Except.ok r => processMessages channel channel_id false [] (applyResult s r) :=
        rfl
      rw [hcons, hm]
      rfl
    rw [step_events, hpm]

/-- Witness for C7 at a concrete join event on a stale session. -/
theorem stale_send_nonfatal_c7_witness :
    handle_message
      { subtype := some "channel_join", user := some "U1",
        channel := some "C123", user_profile := some { name := some "Ada" } }
      "general" "C123" false
      = Except.ok { sendAttempted := true, send := none,
                    log := some (LogEvent.sendFailed "general") }
    ∧ runLoop "general" "C123" 8 false initState
        [⟨ReadResult.events
            [{ subtype := some "channel_join", user := some "U1",
               channel := some "C123", user_profile := some { name := some "Ada" } }],
          false⟩]
      = runLoop "general" "C123" 8 false
          { applyResult initState
              { sendAttempted := true, send := none,
                log := some (LogEvent.sendFailed "general") }
            with retryCount := 0 } [] :=
  ⟨(stale_send_nonfatal_c7 "general" "C123"
      { subtype := some "channel_join", user := some "U1",
        channel := some "C123", user_profile := some { name := some "Ada" } }
      { name := some "Ada" } rfl rfl rfl rfl).1,
   (stale_send_nonfatal_c7 "general" "C123"
      { subtype := some "channel_join", user := some "U1",
        channel := some "C123", user_profile := some { name := some "Ada" } }
      { name := some "Ada" } rfl rfl rfl rfl).2.2 8 initState [] false⟩

/-- Claim C8: in one-shot mode with a (truthy) message text supplied,
after a successful connect and channel resolution, exactly one send call
occurs carrying exactly the supplied text to the target channel, the
read loop is never entered (src/wb2k/sendMessage.py contains none), and
the process exits with status 0. -/
theorem one_shot_send_c8 (channel : String) (verbose retries : Nat)
    (msgText : String) (token : Option String)
    (channels_list groups_list : Option (List Chan)) (channel_id : String)
    (hv : verbose ≤ 11) (ht : optTruthy token = true) (hm : msgText ≠ "")
    (hf : find_channel_id channel channels_list groups_list
            = FindResult.found channel_id) :
    sendMessage_cli channel verbose retries (some msgText) token true true
        channels_list groups_list
    = { sends := [(channel, msgText)], loopEntered := false,
        outcome := OneShotExit.exitZero } := by
  have hmsg : optTruthy (some msgText) = true := by
    simp [optTruthy, hm]
  unfold sendMessage_cli
  rw [if_neg (show ¬ 11 < verbose by omega), ht]
  simp only [Bool.not_true, Bool.false_eq_true, if_false, if_true]
  rw [hf]
  simp only [hmsg, if_true]
  rfl

/-- Witness for C8 at concrete inputs: message `hi`, channel `general`
resolving to `C123`. -/
theorem one_shot_send_c8_witness :
    sendMessage_cli "general" 0 8 (some "hi") (some "xoxb-token") true true
        (some [{ id := "C123", name := "general" }]) (some [])
    = { sends := [("general", "hi")], loopEntered := false,
        outcome := OneShotExit.exitZero } :=
  one_shot_send_c8 "general" 0 8 "hi" (some "xoxb-token")
    (some [{ id := "C123", name := "general" }]) (some []) "C123"
    (by decide) (by decide) (by decide) (by decide)

/-- Claim C9 counterexample: two runs of the persistent entry point
differing only in verbosity (0 versus 12) take different control-flow
paths — the run with verbosity 12 aborts at the verbosity guard before
connecting, while the other proceeds into the read loop. -/
theorem verbosity_counterexample_c9 :
    main_cli "general" 0 8 false (some "xoxb-token") true true
        (some [{ id := "C123", name := "general" }]) (some []) []
    ≠ main_cli "general" 12 8 false (some "xoxb-token") true true
        (some [{ id := "C123", name := "general" }]) (some []) [] := by
  decide

/-- Claim C9 (amended): for verbosity levels at most 11, runs differing
only in the configured verbosity are observationally identical in both
entry points — verbosity then affects only log detail; a level above 11
instead aborts immediately with a fatal error. -/
theorem verbosity_amended_c9 (v1 v2 : Nat) (h1 : v1 ≤ 11) (h2 : v2 ≤ 11)
    (channel : String) (retries : Nat) (announce : Bool)
    (message token : Option String) (connectOk sendOk : Bool)
    (channels_list groups_list : Option (List Chan))
    (script : List LoopInput) :
    main_cli channel v1 retries announce token connectOk sendOk
        channels_list groups_list script
      = main_cli channel v2 retries announce token connectOk sendOk
          channels_list groups_list script
    ∧ sendMessage_cli channel v1 retries message token connectOk sendOk
        channels_list groups_list
      = sendMessage_cli channel v2 retries message token connectOk sendOk
          channels_list groups_list := by
  constructor
  · unfold main_cli
    rw [if_neg (show ¬ 11 < v1 by omega), if_neg (show ¬ 11 < v2 by omega)]
  · unfold sendMessage_cli
    rw [if_neg (show ¬ 11 < v1 by omega), if_neg (show ¬ 11 < v2 by omega)]

/-- Witness for the amended C9 at verbosity levels 0 and 5. -/
theorem verbosity_amended_c9_witness :
    main_cli "general" 0 8 false (some "xoxb-token") true true none none []
      = main_cli "general" 5 8 false (some "xoxb-token") true true none none []
    ∧ sendMessage_cli "general" 0 8 (some "hi") (some "xoxb-token") true true none none
      = sendMessage_cli "general" 5 8 (some "hi") (some "xoxb-token") true true none none :=
  verbosity_amended_c9 0 5 (by decide) (by decide) "general" 8 false
    (some "hi") (some "xoxb-token") true true none none []
